import Mathlib

/-!
Shallow embedding of the emotion-driven generative environment
(src/App.tsx, src/types.ts, src/constants.ts,
src/components/VisualizerCanvas.tsx and the unnamed variants):
landmark normalization, temporal smoothing, emotion debounce,
audio feature extraction and environmental parameter blending,
together with theorems about the stated properties.

Real numbers of the JavaScript source are modelled by rationals.
Calls to the external square-root routine (inside Math.hypot) are modelled
by an explicit function parameter so that every definition stays
executable; the theorems below never depend on the value of that
parameter beyond the facts recorded in SqrtOK.
-/

namespace Meadow

/-- Emotion enum from src/unnamed/part_000 (the types module of the
App.tsx variant). -/
inductive Emotion
  | HAPPY
  | CALM
  | SAD
deriving DecidableEq, Repr

/-- Debounce state of the emotion classifier in src/App.tsx:
stableEmotionRef (the committed emotion) and emotionTimerRef (the streak
counter). -/
structure DebSt where
  stable : Emotion
  timer : Nat
deriving DecidableEq, Repr

/-- One debounce update, src/App.tsx lines 114-123: if the frame candidate
differs from the committed emotion the counter is incremented and, once it
exceeds 5, the candidate is committed and the counter cleared; if the
candidate equals the committed emotion the counter is reset to 0. -/
def debounceStep (s : DebSt) (c : Emotion) : DebSt :=
  if c ≠ s.stable then
    if s.timer + 1 > 5 then ⟨c, 0⟩ else ⟨s.stable, s.timer + 1⟩
  else
    ⟨s.stable, 0⟩

/-- Folding the debounce over a sequence of per-frame candidates. -/
def runDebounce (s : DebSt) (cs : List Emotion) : DebSt :=
  cs.foldl debounceStep s

/-- Initial classifier state, src/App.tsx lines 35-36: committed CALM,
counter 0. -/
def initDeb : DebSt := ⟨Emotion.CALM, 0⟩

/-- Planar point holding one normalized landmark coordinate pair. -/
structure Pt where
  x : ℚ
  y : ℚ
deriving DecidableEq, Repr

/-- Math.hypot of the source, modelled through an explicit square-root
parameter s applied to the sum of squares. -/
def hyp (s : ℚ → ℚ) (dx dy : ℚ) : ℚ := s (dx * dx + dy * dy)

/-- Minimal facts used about the external square root: it is zero at zero
and never negative. -/
def SqrtOK (s : ℚ → ℚ) : Prop := s 0 = 0 ∧ ∀ q : ℚ, 0 ≤ s q

/-- Clamp to the unit interval, the Math.min(Math.max(x, 0), 1) idiom of
src/App.tsx line 126 and src/unnamed/part_001 line 62. -/
def clamp01 (x : ℚ) : ℚ := min (max x 0) 1

/-- Mouth openness ratio, src/App.tsx line 75 and src/unnamed/part_001
line 61: height over width, guarded to 0 when the width is not positive. -/
def rawRatioOf (w h : ℚ) : ℚ := if 0 < w then h / w else 0

/-- Divisor of the curvature normalization, src/App.tsx line 87: the
JavaScript expression mouthW * 0.5 || 1 falls back to 1 when half the
width is zero. -/
def curvDenom (w : ℚ) : ℚ := if w * (1 / 2) = 0 then 1 else w * (1 / 2)

/-- Raw mouth curvature, src/App.tsx line 87:
(cornersY - centerY) / (mouthW * 0.5 || 1). -/
def rawCurvatureOf (cornersY centerY w : ℚ) : ℚ :=
  (cornersY - centerY) / curvDenom w

/-- Emotion candidate from the smoothed curvature, src/App.tsx
lines 99-112: below -0.02 HAPPY, above 0.05 SAD, otherwise CALM. -/
def emotionCandidate (curvature : ℚ) : Emotion :=
  if curvature < -(1 / 50) then Emotion.HAPPY
  else if curvature > 1 / 20 then Emotion.SAD
  else Emotion.CALM

/-- The four mouth landmarks read by the face callback, src/App.tsx
lines 67-70 (indices 61, 291, 13, 14). -/
structure FaceLm where
  left : Pt
  right : Pt
  top : Pt
  bottom : Pt
deriving DecidableEq, Repr

/-- State touched by the face callback of src/App.tsx: the two smoothing
refs, the debounce state, and the shared-state fields it writes. -/
structure FaceSt where
  smoothMouth : ℚ
  smoothCurvature : ℚ
  deb : DebSt
  sysMouthOpenness : ℚ
  sysEmotion : Emotion
deriving DecidableEq, Repr

/-- Body of the face callback for a detected face, src/App.tsx
lines 60-127: geometry, smoothing with factor 0.15, candidate selection,
debounce, and the clamped write of mouth openness together with the
committed emotion. -/
def faceUpdate (s : ℚ → ℚ) (st : FaceSt) (lm : FaceLm) : FaceSt :=
  let mouthW := hyp s (lm.right.x - lm.left.x) (lm.right.y - lm.left.y)
  let mouthH := hyp s (lm.bottom.x - lm.top.x) (lm.bottom.y - lm.top.y)
  let rawRatio := rawRatioOf mouthW mouthH
  let centerY := (lm.top.y + lm.bottom.y) / 2
  let cornersY := (lm.left.y + lm.right.y) / 2
  let rawCurvature := rawCurvatureOf cornersY centerY mouthW
  let smoothMouth := st.smoothMouth + (rawRatio - st.smoothMouth) * (3 / 20)
  let smoothCurv :=
    st.smoothCurvature + (rawCurvature - st.smoothCurvature) * (3 / 20)
  let deb := debounceStep st.deb (emotionCandidate smoothCurv)
  { smoothMouth := smoothMouth
    smoothCurvature := smoothCurv
    deb := deb
    sysMouthOpenness := clamp01 smoothMouth
    sysEmotion := deb.stable }

/-- Face results callback, src/App.tsx lines 58-129: the update runs only
when at least one face landmark set was delivered. -/
def faceOnResults (s : ℚ → ℚ) (st : FaceSt) (faces : List FaceLm) : FaceSt :=
  match faces with
  | [] => st
  | lm :: _ => faceUpdate s st lm

/-- Palm center and the four fingertips read by the hands callback,
src/types.ts variant lines 92-106 (indices 9, 8, 12, 16, 20). -/
structure HandLm where
  palm : Pt
  indexTip : Pt
  middleTip : Pt
  ringTip : Pt
  pinkyTip : Pt
deriving DecidableEq, Repr

/-- Shared-state fields written by the hands callback. -/
structure HandSt where
  handX : ℚ
  handY : ℚ
  fist : Bool
deriving DecidableEq, Repr

/-- Summed fingertip-to-palm distances, src/types.ts variant
lines 102-106. -/
def fistScore (s : ℚ → ℚ) (lm : HandLm) : ℚ :=
  hyp s (lm.indexTip.x - lm.palm.x) (lm.indexTip.y - lm.palm.y) +
    hyp s (lm.middleTip.x - lm.palm.x) (lm.middleTip.y - lm.palm.y) +
    hyp s (lm.ringTip.x - lm.palm.x) (lm.ringTip.y - lm.palm.y) +
    hyp s (lm.pinkyTip.x - lm.palm.x) (lm.pinkyTip.y - lm.palm.y)

/-- Body of the hands callback for a detected hand, src/types.ts variant
lines 92-110: mirrored remap of the palm center and the fist test against
threshold 0.35. -/
def handUpdate (s : ℚ → ℚ) (_st : HandSt) (lm : HandLm) : HandSt :=
  { handX := (1 - lm.palm.x) * 2 - 1
    handY := -lm.palm.y * 2 + 1
    fist := decide (fistScore s lm < 7 / 20) }

/-- Hands results callback, src/types.ts variant lines 90-112: the update
runs only when at least one hand landmark set was delivered. -/
def handsOnResults (s : ℚ → ℚ) (st : HandSt) (hands : List HandLm) : HandSt :=
  match hands with
  | [] => st
  | lm :: _ => handUpdate s st lm

/-- Index-weighted sum of the frequency bins, the numerator loop of
src/App.tsx lines 199-204, accumulated from a running index k. -/
def weightedIdxSum : List Nat → Nat → Nat
  | [], _ => 0
  | x :: xs, k => k * x + weightedIdxSum xs (k + 1)

/-- Amplitude of one audio tick, src/App.tsx lines 193-197:
sum of the bins divided by (bufferLength * 255), that is mean/255. -/
def amplitude (d : List Nat) : ℚ := (d.sum : ℚ) / ((d.length : ℚ) * 255)

/-- Spectral centroid, src/App.tsx lines 199-205: weighted index sum over
the bin sum, guarded to 0 when the denominator is 0. -/
def centroid (d : List Nat) : ℚ :=
  if 0 < d.sum then (weightedIdxSum d 0 : ℚ) / (d.sum : ℚ) else 0

/-- Normalized spectral centroid, src/App.tsx line 206: centroid divided
by the buffer length. -/
def normalizedFreq (d : List Nat) : ℚ := centroid d / (d.length : ℚ)

/-- CONFIG.happyMusicRate, src/constants.ts line 15. -/
def happyMusicRate : ℚ := 23 / 20

/-- CONFIG.sadMusicRate, src/constants.ts line 16. -/
def sadMusicRate : ℚ := 17 / 20

/-- Per-emotion playback-rate target, src/App.tsx lines 214-218. -/
def targetRate : Emotion → ℚ
  | Emotion.HAPPY => happyMusicRate
  | Emotion.SAD => sadMusicRate
  | Emotion.CALM => 1

/-- One playback-rate update, src/App.tsx lines 220-221:
rate + (target - rate) * 0.05. -/
def rateStep (r : ℚ) (e : Emotion) : ℚ := r + (targetRate e - r) * (1 / 20)

/-- Playback rate after a sequence of audio ticks under the given
emotions, starting from the initial rate 1.0. -/
def runPlaybackRate (es : List Emotion) : ℚ := es.foldl rateStep 1

/-- Shared-state fields read and written by the audio analysis tick of
src/App.tsx. -/
structure AudioSt where
  soundAmplitude : ℚ
  soundFrequency : ℚ
  playbackRate : ℚ
  emotion : Emotion
deriving DecidableEq, Repr

/-- One audio analysis tick, src/App.tsx lines 186-224: the raw amplitude
and the normalized centroid are written to shared state and the playback
rate is blended toward the per-emotion target. -/
def appAudioStep (st : AudioSt) (d : List Nat) : AudioSt :=
  { soundAmplitude := amplitude d
    soundFrequency := normalizedFreq d
    playbackRate := rateStep st.playbackRate st.emotion
    emotion := st.emotion }

/-- Amplitude write of the generative update loop, src/types.ts variant
line 264: soundAmplitude * 0.9 + amplitude * 0.1. -/
def genLoopAmplitude (prev : ℚ) (d : List Nat) : ℚ :=
  prev * (9 / 10) + amplitude d * (1 / 10)

/-- Exponential blend of one scalar toward a target by factor k, the
x += (t - x) * k pattern of the animation loops. -/
def lerpQ (x t k : ℚ) : ℚ := x + (t - x) * k

/-- Color triple with channels in [0, 1], mirroring THREE.Color. -/
structure Color3 where
  r : ℚ
  g : ℚ
  b : ℚ
deriving DecidableEq, Repr

/-- THREE.Color.lerp: each channel blended independently by factor k. -/
def colorLerp (c t : Color3) (k : ℚ) : Color3 :=
  ⟨lerpQ c.r t.r k, lerpQ c.g t.g k, lerpQ c.b t.b k⟩

/-- THREE.Color.setHex: extract the three 8-bit channels and scale each
to [0, 1]. -/
def colorOfHex (n : Nat) : Color3 :=
  ⟨((n / 65536 % 256 : Nat) : ℚ) / 255, ((n / 256 % 256 : Nat) : ℚ) / 255,
    ((n % 256 : Nat) : ℚ) / 255⟩

/-- CONFIG.happyColor, src/constants.ts line 9. -/
def happyColor : Nat := 0xFF2A00

/-- CONFIG.calmColor, src/constants.ts line 10. -/
def calmColor : Nat := 0x00FFD5

/-- CONFIG.sadColor, src/constants.ts line 11. -/
def sadColor : Nat := 0x6200FF

/-- Per-emotion grass base color target, src/unnamed/part_002
lines 607-648. -/
def grassBaseTarget : Emotion → Color3
  | Emotion.CALM => colorOfHex 0x1a2a0a
  | Emotion.HAPPY => colorOfHex 0x2a5a2a
  | Emotion.SAD => colorOfHex 0x05101a

/-- Per-emotion grass tip color target, src/unnamed/part_002
lines 607-648, drawn from CONFIG. -/
def grassTipTarget : Emotion → Color3
  | Emotion.CALM => colorOfHex calmColor
  | Emotion.HAPPY => colorOfHex happyColor
  | Emotion.SAD => colorOfHex sadColor

/-- Per-emotion sun color target, src/unnamed/part_002 lines 607-648. -/
def sunColorTarget : Emotion → Color3
  | Emotion.CALM => colorOfHex 0xffaa33
  | Emotion.HAPPY => colorOfHex 0xffffcc
  | Emotion.SAD => colorOfHex 0x8899aa

/-- Per-emotion weather particle color target, src/unnamed/part_002
lines 607-648. -/
def weatherColorTarget : Emotion → Color3
  | Emotion.CALM => colorOfHex 0xE6C229
  | Emotion.HAPPY => colorOfHex 0x88FF88
  | Emotion.SAD => colorOfHex 0xDDDDFF

/-- Per-emotion weather particle speed target, src/unnamed/part_002
lines 607-648. -/
def weatherSpeedTarget : Emotion → ℚ
  | Emotion.CALM => 6
  | Emotion.HAPPY => 8
  | Emotion.SAD => 25

/-- Per-emotion weather sway target, src/unnamed/part_002
lines 607-648. -/
def weatherSwayTarget : Emotion → ℚ
  | Emotion.CALM => 2
  | Emotion.HAPPY => 3 / 2
  | Emotion.SAD => 1 / 2

/-- Per-emotion weather particle size target, src/unnamed/part_002
lines 607-648. -/
def weatherSizeTarget : Emotion → ℚ
  | Emotion.CALM => 5
  | Emotion.HAPPY => 4
  | Emotion.SAD => 5 / 2

/-- Per-emotion sun halo opacity target, src/unnamed/part_002
lines 607-648. -/
def haloOpacityTarget : Emotion → ℚ
  | Emotion.CALM => 2 / 5
  | Emotion.HAPPY => 4 / 5
  | Emotion.SAD => 0

/-- Grass base color blend of one render tick, src/unnamed/part_002
line 658 (factor 0.05). -/
def grassBaseStep (c : Color3) (e : Emotion) : Color3 :=
  colorLerp c (grassBaseTarget e) (1 / 20)

/-- Grass tip color blend of one render tick, src/unnamed/part_002
line 659 (factor 0.05). -/
def grassTipStep (c : Color3) (e : Emotion) : Color3 :=
  colorLerp c (grassTipTarget e) (1 / 20)

/-- Sun light color blend of one render tick, src/unnamed/part_002
line 661 (factor 0.05). -/
def sunColorStep (c : Color3) (e : Emotion) : Color3 :=
  colorLerp c (sunColorTarget e) (1 / 20)

/-- Weather color blend of one render tick, src/unnamed/part_002
line 665 (factor 0.05). -/
def weatherColorStep (c : Color3) (e : Emotion) : Color3 :=
  colorLerp c (weatherColorTarget e) (1 / 20)

/-- Weather speed blend of one render tick, src/unnamed/part_002
line 666 (factor 0.05). -/
def weatherSpeedStep (x : ℚ) (e : Emotion) : ℚ :=
  x + (weatherSpeedTarget e - x) * (1 / 20)

/-- Weather sway blend of one render tick, src/unnamed/part_002
line 667 (factor 0.05). -/
def weatherSwayStep (x : ℚ) (e : Emotion) : ℚ :=
  x + (weatherSwayTarget e - x) * (1 / 20)

/-- Weather size blend of one render tick, src/unnamed/part_002
line 668 (factor 0.05). -/
def weatherSizeStep (x : ℚ) (e : Emotion) : ℚ :=
  x + (weatherSizeTarget e - x) * (1 / 20)

/-- Halo opacity blend of one render tick, src/unnamed/part_002
lines 681-682 (factor 0.02). -/
def haloOpacityStep (x : ℚ) (e : Emotion) : ℚ :=
  x + (haloOpacityTarget e - x) * (1 / 50)

/-- Wind strength of one render tick, src/unnamed/part_002 line 652 and
src/components/VisualizerCanvas.tsx line 301: recomputed directly from
the current sound amplitude, not blended. -/
def windStrength (soundAmplitude : ℚ) : ℚ := 1 / 2 + soundAmplitude * 5

/-- Case law of debounceStep: candidate equal to the committed emotion
resets the counter. -/
theorem debounceStep_eq_same (s : DebSt) (c : Emotion) (h : c = s.stable) :
    debounceStep s c = ⟨s.stable, 0⟩ := by
  simp [debounceStep, h]

/-- Case law of debounceStep: a differing candidate below the threshold
increments the counter and keeps the committed emotion. -/
theorem debounceStep_eq_incr (s : DebSt) (c : Emotion) (h : c ≠ s.stable)
    (h5 : s.timer + 1 ≤ 5) :
    debounceStep s c = ⟨s.stable, s.timer + 1⟩ := by
  unfold debounceStep
  rw [if_pos h, if_neg (by omega)]

/-- Case law of debounceStep: a differing candidate beyond the threshold
commits the candidate and clears the counter. -/
theorem debounceStep_eq_commit (s : DebSt) (c : Emotion) (h : c ≠ s.stable)
    (h5 : 5 < s.timer + 1) :
    debounceStep s c = ⟨c, 0⟩ := by
  unfold debounceStep
  rw [if_pos h, if_pos h5]

/-- Any candidate sequence short enough that the counter cannot exceed 5
leaves the committed emotion unchanged. -/
theorem runDebounce_stable_of_short (s : DebSt) (cs : List Emotion)
    (h : s.timer + cs.length ≤ 5) :
    (runDebounce s cs).stable = s.stable := by
  induction cs generalizing s with
  | nil => rfl
  | cons c cs ih =>
    simp only [runDebounce, List.foldl_cons] at *
    by_cases hc : c = s.stable
    · rw [debounceStep_eq_same s c hc]
      have hlen : (0 : Nat) + cs.length ≤ 5 := by
        simp only [List.length_cons] at h; omega
      exact ih ⟨s.stable, 0⟩ hlen
    · have hle : s.timer + 1 ≤ 5 := by
        simp only [List.length_cons] at h; omega
      rw [debounceStep_eq_incr s c hc hle]
      have hlen : s.timer + 1 + cs.length ≤ 5 := by
        simp only [List.length_cons] at h; omega
      exact ih ⟨s.stable, s.timer + 1⟩ hlen

/-- C1 counterexample: the claimed reset policy (reset to 0 whenever the
candidate differs from the previous frame candidate, increment otherwise)
is false for the code. Starting from the initial state, candidates SAD then
HAPPY leave the counter at 2 even though HAPPY differs from the previous
candidate SAD, and candidates CALM then CALM leave the counter at 0 even
though CALM equals the previous candidate. -/
theorem c1_counterexample :
    Emotion.HAPPY ≠ Emotion.SAD ∧
    (runDebounce initDeb [Emotion.SAD, Emotion.HAPPY]).timer = 2 ∧
    (runDebounce initDeb [Emotion.CALM, Emotion.CALM]).timer = 0 := by
  decide

/-- C1 amended: the streak counter is reset to 0 exactly when the frame
candidate equals the currently committed emotion, and is incremented when
it differs from the committed emotion; the committed emotion is updated to
the candidate only once the incremented counter exceeds 5, the counter
being cleared on commit. -/
theorem c1_debounce_policy (s : DebSt) (c : Emotion) :
    (c = s.stable → debounceStep s c = ⟨s.stable, 0⟩) ∧
    (c ≠ s.stable → s.timer + 1 ≤ 5 →
        debounceStep s c = ⟨s.stable, s.timer + 1⟩) ∧
    (c ≠ s.stable → 5 < s.timer + 1 → debounceStep s c = ⟨c, 0⟩) :=
  ⟨debounceStep_eq_same s c, debounceStep_eq_incr s c,
    debounceStep_eq_commit s c⟩

/-- Witness for c1_debounce_policy at a concrete state and candidate. -/
theorem c1_debounce_policy_witness :
    debounceStep initDeb Emotion.CALM = ⟨Emotion.CALM, 0⟩ :=
  (c1_debounce_policy initDeb Emotion.CALM).1 rfl

/-- C2: starting committed CALM with counter 0, any run of at most 5 SAD
candidates leaves the committed emotion CALM, a run of 6 SAD candidates
commits SAD exactly on the 6th frame, and in general no sequence of frames
along which the counter cannot pass 5 changes the committed emotion, so a
transition needs more than 5 consecutive frames whose candidate differs
from the committed emotion. -/
theorem c2_transition_needs_streak :
    (∀ n : Nat, n ≤ 5 →
        (runDebounce initDeb (List.replicate n Emotion.SAD)).stable =
          Emotion.CALM) ∧
    (runDebounce initDeb (List.replicate 6 Emotion.SAD)).stable =
      Emotion.SAD ∧
    (∀ (s : DebSt) (cs : List Emotion), s.timer + cs.length ≤ 5 →
        (runDebounce s cs).stable = s.stable) := by
  refine ⟨?_, by decide, fun s cs h => runDebounce_stable_of_short s cs h⟩
  intro n hn
  have h0 : initDeb.timer + (List.replicate n Emotion.SAD).length ≤ 5 := by
    simp only [initDeb, List.length_replicate]
    omega
  exact runDebounce_stable_of_short initDeb (List.replicate n Emotion.SAD) h0

/-- Witness for c2_transition_needs_streak: five SAD frames leave the
committed emotion CALM. -/
theorem c2_transition_needs_streak_witness :
    (runDebounce initDeb (List.replicate 5 Emotion.SAD)).stable =
      Emotion.CALM :=
  c2_transition_needs_streak.1 5 (Nat.le_refl 5)

/-- Both clamp bounds, shared by the openness theorems. -/
theorem clamp01_mem (x : ℚ) : 0 ≤ clamp01 x ∧ clamp01 x ≤ 1 := by
  unfold clamp01
  exact ⟨le_min (le_max_right x 0) zero_le_one, min_le_right _ _⟩

/-- C4 counterexample: with measured mouth width 0 the raw curvature is
not 0. At corners height 1/2 and lip-center height 7/20 (as produced by
the coincident corner landmarks (1/2, 1/2) with lips at heights 3/10 and
2/5, whose width Math.hypot(0, 0) is 0), the guarded division yields 3/20,
not 0. -/
theorem c4_counterexample :
    rawCurvatureOf (1 / 2) (7 / 20) 0 = 3 / 20 ∧ (3 / 20 : ℚ) ≠ 0 := by
  constructor
  · norm_num [rawCurvatureOf, curvDenom]
  · norm_num

/-- C4 amended: the guard replaces a zero divisor by 1, so no division
fault occurs (the divisor is never 0), but at zero mouth width the raw
curvature equals cornersY - centerY instead of 0. -/
theorem c4_zero_width_curvature (cornersY centerY : ℚ) :
    rawCurvatureOf cornersY centerY 0 = cornersY - centerY ∧
    ∀ w : ℚ, curvDenom w ≠ 0 := by
  constructor
  · simp [rawCurvatureOf, curvDenom]
  · intro w
    unfold curvDenom
    by_cases hw : w * (1 / 2) = 0
    · rw [if_pos hw]; norm_num
    · rw [if_neg hw]; exact hw

/-- C5: the mouth openness written to shared state always lies in [0, 1],
for any smoother state, any landmark set and any square-root behavior; the
raw ratio is guarded to 0 at zero width; and the part_001 variant, which
stores the clamped raw ratio directly, also stays in [0, 1]. -/
theorem c5_mouthOpenness_unit (s : ℚ → ℚ) (st : FaceSt) (lm : FaceLm)
    (w h : ℚ) :
    (0 ≤ (faceUpdate s st lm).sysMouthOpenness ∧
      (faceUpdate s st lm).sysMouthOpenness ≤ 1) ∧
    rawRatioOf 0 h = 0 ∧
    (0 ≤ clamp01 (rawRatioOf w h) ∧ clamp01 (rawRatioOf w h) ≤ 1) := by
  refine ⟨?_, ?_, clamp01_mem _⟩
  · simp only [faceUpdate]
    exact clamp01_mem _
  · simp [rawRatioOf]

/-- C7: a tracking callback that delivers no detections (an empty face or
hand landmark list) performs no update at all: the smoother state, the
debounce state and every shared-state field keep their previous values. -/
theorem c7_no_detection_no_update (s : ℚ → ℚ) (fst : FaceSt) (hst : HandSt) :
    faceOnResults s fst [] = fst ∧ handsOnResults s hst [] = hst :=
  ⟨rfl, rfl⟩

/-- C9: for any detected hand whose palm center lies in the unit square,
the stored hand position is x = (1 - palmX)*2 - 1 and y = -palmY*2 + 1,
and both components lie in [-1, 1]. -/
theorem c9_hand_mapping (s : ℚ → ℚ) (st : HandSt) (lm : HandLm)
    (hx0 : 0 ≤ lm.palm.x) (hx1 : lm.palm.x ≤ 1)
    (hy0 : 0 ≤ lm.palm.y) (hy1 : lm.palm.y ≤ 1) :
    (handUpdate s st lm).handX = (1 - lm.palm.x) * 2 - 1 ∧
    (handUpdate s st lm).handY = -lm.palm.y * 2 + 1 ∧
    (-1 ≤ (handUpdate s st lm).handX ∧ (handUpdate s st lm).handX ≤ 1) ∧
    (-1 ≤ (handUpdate s st lm).handY ∧ (handUpdate s st lm).handY ≤ 1) := by
  refine ⟨rfl, rfl, ⟨?_, ?_⟩, ⟨?_, ?_⟩⟩ <;>
    simp only [handUpdate] <;> linarith

/-- Witness for c9_hand_mapping at palm center (0, 0). -/
theorem c9_hand_mapping_witness :
    -1 ≤ (handUpdate (fun _ => (0 : ℚ)) ⟨0, 0, false⟩
        ⟨⟨0, 0⟩, ⟨0, 0⟩, ⟨0, 0⟩, ⟨0, 0⟩, ⟨0, 0⟩⟩).handX ∧
    (handUpdate (fun _ => (0 : ℚ)) ⟨0, 0, false⟩
        ⟨⟨0, 0⟩, ⟨0, 0⟩, ⟨0, 0⟩, ⟨0, 0⟩, ⟨0, 0⟩⟩).handX ≤ 1 :=
  (c9_hand_mapping (fun _ => (0 : ℚ)) ⟨0, 0, false⟩
    ⟨⟨0, 0⟩, ⟨0, 0⟩, ⟨0, 0⟩, ⟨0, 0⟩, ⟨0, 0⟩⟩
    (le_refl 0) zero_le_one (le_refl 0) zero_le_one).2.2.1

/-- The weighted index sum is bounded by the largest possible index times
the bin sum, stated in a form stable under the induction. -/
theorem weightedIdxSum_add_sum_le (d : List Nat) (k : Nat) :
    weightedIdxSum d k + d.sum ≤ (k + d.length) * d.sum := by
  induction d generalizing k with
  | nil => simp [weightedIdxSum]
  | cons x xs ih =>
    have h := ih (k + 1)
    simp only [weightedIdxSum, List.sum_cons, List.length_cons]
    have hx : (k + 1) * x ≤ (k + (xs.length + 1)) * x :=
      mul_le_mul_right' (by omega) x
    calc k * x + weightedIdxSum xs (k + 1) + (x + xs.sum)
        = (k + 1) * x + (weightedIdxSum xs (k + 1) + xs.sum) := by ring
      _ ≤ (k + (xs.length + 1)) * x + (k + 1 + xs.length) * xs.sum :=
          Nat.add_le_add hx h
      _ = (k + (xs.length + 1)) * (x + xs.sum) := by ring

/-- C6: on an audio tick with a nonempty frame, the spectral centroid is 0
whenever the bin sum is 0, the normalized centroid always lies in [0, 1],
and an all-zero frame yields amplitude 0 and centroid 0 with every
division guarded. -/
theorem c6_spectral_centroid (d : List Nat) (hd : 0 < d.length) :
    (d.sum = 0 → centroid d = 0) ∧
    (0 ≤ normalizedFreq d ∧ normalizedFreq d ≤ 1) ∧
    ((∀ x ∈ d, x = 0) → amplitude d = 0 ∧ centroid d = 0) := by
  have hlen : (0 : ℚ) < (d.length : ℚ) := by exact_mod_cast hd
  have hzero : d.sum = 0 → centroid d = 0 := by
    intro h
    simp [centroid, h]
  refine ⟨hzero, ⟨?_, ?_⟩, ?_⟩
  · unfold normalizedFreq
    apply div_nonneg _ (le_of_lt hlen)
    unfold centroid
    by_cases hs : 0 < d.sum
    · rw [if_pos hs]
      positivity
    · rw [if_neg hs]
  · unfold normalizedFreq
    rw [div_le_one hlen]
    by_cases hs : 0 < d.sum
    · have hsQ : (0 : ℚ) < (d.sum : ℚ) := by exact_mod_cast hs
      unfold centroid
      rw [if_pos hs, div_le_iff₀ hsQ]
      have h0 := weightedIdxSum_add_sum_le d 0
      rw [Nat.zero_add] at h0
      have hle : weightedIdxSum d 0 ≤ d.length * d.sum :=
        le_trans (Nat.le_add_right _ _) h0
      exact_mod_cast hle
    · unfold centroid
      rw [if_neg hs]
      linarith
  · intro h
    have hsum : d.sum = 0 := List.sum_eq_zero h
    exact ⟨by simp [amplitude, hsum], hzero hsum⟩

/-- Witness for c6_spectral_centroid on the all-zero four-bin frame. -/
theorem c6_spectral_centroid_witness :
    amplitude [0, 0, 0, 0] = 0 ∧ centroid [0, 0, 0, 0] = 0 :=
  (c6_spectral_centroid [0, 0, 0, 0] (by decide)).2.2 (by decide)

/-- C8 counterexample: the audio tick of src/App.tsx writes the raw
amplitude to shared state without smoothing. With previous amplitude 0 and
an all-255 four-bin frame the written value is 1, while the EMA write of
the generative loop (factor 0.1) would produce 1/10. -/
theorem c8_counterexample :
    (appAudioStep ⟨0, 0, 1, Emotion.CALM⟩ [255, 255, 255, 255]).soundAmplitude
        = 1 ∧
    genLoopAmplitude 0 [255, 255, 255, 255] = 1 / 10 ∧
    (1 : ℚ) ≠ 1 / 10 := by
  refine ⟨?_, ?_, by norm_num⟩
  · show amplitude [255, 255, 255, 255] = 1
    norm_num [amplitude]
  · norm_num [genLoopAmplitude, amplitude]

/-- C8 amended: amplitude is mean(samples)/255 in both audio loops; the
generative update loop of the src/types.ts variant smooths it with an EMA
of factor 0.1 before the write, while the audio tick of src/App.tsx writes
the raw amplitude unsmoothed. -/
theorem c8_amplitude_write (prev : ℚ) (st : AudioSt) (d : List Nat) :
    genLoopAmplitude prev d = prev + (amplitude d - prev) * (1 / 10) ∧
    (appAudioStep st d).soundAmplitude = amplitude d ∧
    amplitude d = (d.sum : ℚ) / (d.length : ℚ) / 255 := by
  refine ⟨?_, rfl, (div_div _ _ _).symm⟩
  unfold genLoopAmplitude
  ring

/-- Per-emotion rate targets stay inside the configured band. -/
theorem targetRate_mem (e : Emotion) :
    sadMusicRate ≤ targetRate e ∧ targetRate e ≤ happyMusicRate := by
  cases e <;> norm_num [targetRate, happyMusicRate, sadMusicRate]

/-- One playback-rate update keeps the rate inside the configured band. -/
theorem rateStep_mem (r : ℚ) (e : Emotion) (h1 : sadMusicRate ≤ r)
    (h2 : r ≤ happyMusicRate) :
    sadMusicRate ≤ rateStep r e ∧ rateStep r e ≤ happyMusicRate := by
  have ht := targetRate_mem e
  unfold rateStep
  unfold sadMusicRate happyMusicRate at *
  constructor <;> linarith [ht.1, ht.2]

/-- Folding rate updates over any emotion sequence preserves the band. -/
theorem foldl_rateStep_mem (es : List Emotion) (r : ℚ)
    (h1 : sadMusicRate ≤ r) (h2 : r ≤ happyMusicRate) :
    sadMusicRate ≤ es.foldl rateStep r ∧
      es.foldl rateStep r ≤ happyMusicRate := by
  induction es generalizing r with
  | nil => exact ⟨h1, h2⟩
  | cons e es ih =>
    rw [List.foldl_cons]
    have h := rateStep_mem r e h1 h2
    exact ih (rateStep r e) h.1 h.2

/-- C10: every per-emotion rate target is one of 0.85, 1.0 and 1.15, and
starting from the initial playback rate 1.0 the rate stays within
[sadMusicRate, happyMusicRate] = [0.85, 1.15] after any sequence of audio
ticks under any sequence of emotions. -/
theorem c10_playbackRate_invariant (es : List Emotion) :
    (∀ e : Emotion, targetRate e = sadMusicRate ∨ targetRate e = 1 ∨
        targetRate e = happyMusicRate) ∧
    sadMusicRate ≤ runPlaybackRate es ∧
      runPlaybackRate es ≤ happyMusicRate := by
  refine ⟨?_, ?_⟩
  · intro e
    cases e <;> simp [targetRate]
  · unfold runPlaybackRate
    exact foldl_rateStep_mem es 1 (by norm_num [sadMusicRate])
      (by norm_num [happyMusicRate])

/-- Exponential blending by a factor in [0, 1] moves toward the target
without overshooting it, in both directions. -/
theorem lerpQ_no_overshoot (x t k : ℚ) (h0 : 0 ≤ k) (h1 : k ≤ 1) :
    (x ≤ t → x ≤ lerpQ x t k ∧ lerpQ x t k ≤ t) ∧
    (t ≤ x → t ≤ lerpQ x t k ∧ lerpQ x t k ≤ x) := by
  unfold lerpQ
  constructor <;> intro h <;> constructor <;> nlinarith

/-- The per-tick movement of an exponential blend is exactly the factor
times the remaining gap. -/
theorem lerpQ_bounded_step (x t k : ℚ) (h0 : 0 ≤ k) :
    |lerpQ x t k - x| = k * |t - x| := by
  have hstep : lerpQ x t k - x = (t - x) * k := by
    unfold lerpQ
    ring
  rw [hstep, abs_mul, abs_of_nonneg h0, mul_comm]

/-- C3 counterexample: the wind strength is not a blended target. Under a
constant emotion, moving the sound amplitude from 0 to 1 and back moves
the wind from 1/2 to 11/2 and back, a jump of the full range in one tick,
and no fixed target value blended with factor 0.05 can produce those two
consecutive updates. -/
theorem c3_counterexample :
    windStrength 0 = 1 / 2 ∧ windStrength 1 = 11 / 2 ∧
    windStrength 1 - windStrength 0 = 5 ∧
    ¬∃ t : ℚ, windStrength 1 = lerpQ (windStrength 0) t (1 / 20) ∧
        windStrength 0 = lerpQ (windStrength 1) t (1 / 20) := by
  refine ⟨by norm_num [windStrength], by norm_num [windStrength],
    by norm_num [windStrength], ?_⟩
  rintro ⟨t, h1, h2⟩
  simp only [windStrength, lerpQ] at h1 h2
  norm_num at h1 h2
  linarith

/-- C3 amended: each genuinely blended target (music playback rate,
weather speed, sway and size, halo opacity, and every color channel of
the grass, sun and weather colors) is updated by the exponential blend
x + (t - x) * k toward its configured per-emotion value with factor 0.05
(0.02 for the halo opacity), and such a blend moves monotonically toward
the target without overshoot, moving each tick by exactly the factor times
the remaining gap; the wind strength, by contrast, is recomputed each tick
directly as 0.5 + soundAmplitude * 5 and is not blended. -/
theorem c3_blended_targets_monotone (x t k r : ℚ) (e : Emotion) (c : Color3)
    (h0 : 0 ≤ k) (h1 : k ≤ 1) :
    ((x ≤ t → x ≤ lerpQ x t k ∧ lerpQ x t k ≤ t) ∧
      (t ≤ x → t ≤ lerpQ x t k ∧ lerpQ x t k ≤ x) ∧
      |lerpQ x t k - x| = k * |t - x|) ∧
    rateStep r e = lerpQ r (targetRate e) (1 / 20) ∧
    weatherSpeedStep x e = lerpQ x (weatherSpeedTarget e) (1 / 20) ∧
    weatherSwayStep x e = lerpQ x (weatherSwayTarget e) (1 / 20) ∧
    weatherSizeStep x e = lerpQ x (weatherSizeTarget e) (1 / 20) ∧
    haloOpacityStep x e = lerpQ x (haloOpacityTarget e) (1 / 50) ∧
    (grassBaseStep c e).r = lerpQ c.r (grassBaseTarget e).r (1 / 20) ∧
    (grassTipStep c e).r = lerpQ c.r (grassTipTarget e).r (1 / 20) ∧
    (sunColorStep c e).g = lerpQ c.g (sunColorTarget e).g (1 / 20) ∧
    (weatherColorStep c e).b = lerpQ c.b (weatherColorTarget e).b (1 / 20) ∧
    windStrength x = 1 / 2 + x * 5 := by
  have hl := lerpQ_no_overshoot x t k h0 h1
  exact ⟨⟨hl.1, hl.2, lerpQ_bounded_step x t k h0⟩, rfl, rfl, rfl, rfl, rfl,
    rfl, rfl, rfl, rfl, rfl⟩

/-- Witness for c3_blended_targets_monotone at gap 1 and factor 1. -/
theorem c3_blended_targets_monotone_witness :
    (0 : ℚ) ≤ lerpQ 0 1 1 ∧ lerpQ 0 1 1 ≤ 1 :=
  ((c3_blended_targets_monotone 0 1 1 1 Emotion.CALM ⟨0, 0, 0⟩
    zero_le_one (le_refl 1)).1.1) zero_le_one

end Meadow
